import Mathlib

/-!
Verification of the credential & verification lifecycle of the
tracking_be repository (password hashing, JWT issuance/validation,
login throttling, single-use password-reset token semantics).

Each definition is a shallow embedding of the corresponding Python
function; timestamps are modelled as integers (seconds), strings of
the hashing layer as lists of characters, and the document store as a
list of records searched in insertion (natural) order, matching the
behaviour of `find_one` on the backing collection.
-/

namespace Tracking

/-! ## Password hasher (src/auth_utils.py 23-36)

`simple_hash_password` draws a random 32-hex-character salt and stores
`f"{salt}:{hash}"`; we take the salt and the SHA-256 hex digest as
parameters (the digest is a pure function of its input string).
`simple_verify_password` does `hashed_password.split(":", 1)`; when the
stored form has no colon the tuple unpacking raises and the bare
`except:` returns `False`.  `splitFirst` models `split(":", 1)`
together with that unpacking: `none` is the raising case. -/

def splitFirst : List Char → Option (List Char × List Char)
  | [] => none
  | c :: rest =>
    if c = ':' then some ([], rest)
    else
      match splitFirst rest with
      | none => none
      | some (a, b) => some (c :: a, b)

def simple_hash_password (digest : List Char → List Char)
    (salt : List Char) (password : List Char) : List Char :=
  salt ++ [':'] ++ digest (password ++ salt)

def simple_verify_password (digest : List Char → List Char)
    (password hashed_password : List Char) : Bool :=
  match splitFirst hashed_password with
  | none => false
  | some (salt, stored_hash) => digest (password ++ salt) == stored_hash

/-! ## Login throttle (src/auth_utils.py 38-58)

The per-identifier deque of failure timestamps is a `List Int` in
append order.  `_prune_attempts` pops from the left while the head is
older than `now - 300`; `is_login_allowed` prunes and then compares the
length against the max-attempts bound, returning the updated deque
alongside the boolean (the Python function mutates in place). -/

def LOCKOUT_WINDOW_SECONDS : Int := 300

def MAX_ATTEMPTS : Nat := 10

def prune_attempts (now : Int) (attempts : List Int) : List Int :=
  attempts.dropWhile (fun t => decide (t < now - LOCKOUT_WINDOW_SECONDS))

def is_login_allowed (now : Int) (attempts : List Int) : Bool × List Int :=
  let a := prune_attempts now attempts
  (decide (a.length < MAX_ATTEMPTS), a)

def register_login_failure (now : Int) (attempts : List Int) : List Int :=
  prune_attempts now attempts ++ [now]

def register_login_success (_attempts : List Int) : List Int := []

/-! ## JWT payloads (src/auth_utils.py 68-76)

A decoded token payload.  Every login endpoint calls
`create_access_token(data={"sub": user.email}, ...)`, so the encoded
dictionary has a `sub` key, possibly a `user_type` key (never set by
any endpoint in the repository), and the `exp` key added by
`create_access_token` itself.  Signature and base64 transport are
abstracted away: a token carried to a validator is either a payload
that decodes under the process key, or a decode failure (`JWTError`). -/

structure TokenData where
  sub : Option String
  user_type : Option String
deriving Repr, DecidableEq

structure Payload where
  sub : Option String
  user_type : Option String
  exp : Int
deriving Repr, DecidableEq

def create_access_token (data : TokenData) (now : Int)
    (expires_delta : Option Int) : Payload :=
  let expire := match expires_delta with
    | some d => now + d
    | none => now + 15 * 60
  { sub := data.sub, user_type := data.user_type, exp := expire }

/-! ## Account records (src/models.py 27-36) -/

structure User where
  email : String
  hashed_password : List Char
  is_admin : Bool
  is_active : Bool
deriving Repr, DecidableEq

structure Referral where
  email : String
  hashed_password : List Char
deriving Repr, DecidableEq

/-- Result of a document-store lookup: the store either answers
(`ok`, possibly with no matching document) or raises (`error`). -/
abbrev Lookup (α : Type) := Except Unit (Option α)

/-! ## Authentication gate (src/auth_utils.py 90-159)

`get_current_user` first decodes the token (`except JWTError` → 401;
missing token or missing `sub` → 401), then looks the email up.  The
lookup is wrapped in `try ... except Exception`: a raising store gives
the 503 response — but the `raise credentials_exception` for a
`None` user sits inside that same `try`, and `HTTPException` is a
subclass of `Exception`, so the 401 raised for a missing user is
caught by the `except Exception` clause and re-raised as the 503
"Database service unavailable" response.  The embedding reproduces
that control flow exactly.  `get_current_referral` additionally
requires `payload.get("user_type") == "referral"` before the lookup. -/

inductive AuthResult (α : Type) where
  | unauthorized
  | serviceUnavailable
  | ok (principal : α)
deriving Repr, DecidableEq

def get_current_user (token : Option (Except Unit Payload))
    (db : String → Lookup User) : AuthResult User :=
  match token with
  | none => .unauthorized
  | some (.error _) => .unauthorized
  | some (.ok payload) =>
    match payload.sub with
    | none => .unauthorized
    | some email =>
      match db email with
      | .error _ => .serviceUnavailable
      | .ok none => .serviceUnavailable
      | .ok (some user) => .ok user

def get_current_referral (token : Option (Except Unit Payload))
    (db : String → Lookup Referral) : AuthResult Referral :=
  match token with
  | none => .unauthorized
  | some (.error _) => .unauthorized
  | some (.ok payload) =>
    match payload.sub with
    | none => .unauthorized
    | some email =>
      if payload.user_type ≠ some "referral" then .unauthorized
      else
        match db email with
        | .error _ => .serviceUnavailable
        | .ok none => .serviceUnavailable
        | .ok (some referral) => .ok referral

/-! ## Credential check (src/crud.py 265-274)

`authenticate_user` wraps the lookup and the password check in
`try ... except Exception: return None`, so a raising store is
indistinguishable from bad credentials.  The second component counts
how many times `verify_password` runs (`if not user or not
verify_password(...)` short-circuits, so a missing user verifies
nothing). -/

def authenticate_user (digest : List Char → List Char)
    (lookup : Lookup User) (password : List Char) : Option User × Nat :=
  match lookup with
  | .error _ => (none, 0)
  | .ok none => (none, 0)
  | .ok (some user) =>
    if simple_verify_password digest password user.hashed_password
    then (some user, 1) else (none, 1)

/-! ## Login endpoints (src/routers/auth.py 13-192)

Each endpoint: throttle check first (429), then `authenticate_user`
(401 on `None`), then the role check where present (403), then the
active check (403), then token issuance with
`data={"sub": user.email}`.  The second component carries the
password-verification count through from `authenticate_user`; the
throttled branch returns before `authenticate_user` is called, so its
count is 0. -/

inductive LoginOutcome where
  | throttled
  | invalidCredentials
  | wrongRole
  | deactivated
  | success (payload : Payload)
deriving Repr, DecidableEq

def ACCESS_TOKEN_EXPIRE_MINUTES : Int := 30

def login (digest : List Char → List Char) (attempts : List Int)
    (now : Int) (lookup : Lookup User) (password : List Char) :
    LoginOutcome × Nat :=
  if !(is_login_allowed now attempts).1 then (.throttled, 0)
  else
    match authenticate_user digest lookup password with
    | (none, n) => (.invalidCredentials, n)
    | (some user, n) =>
      if !user.is_active then (.deactivated, n)
      else
        (.success (create_access_token ⟨some user.email, none⟩ now
          (some (ACCESS_TOKEN_EXPIRE_MINUTES * 60))), n)

def admin_login (digest : List Char → List Char) (attempts : List Int)
    (now : Int) (lookup : Lookup User) (password : List Char) :
    LoginOutcome × Nat :=
  if !(is_login_allowed now attempts).1 then (.throttled, 0)
  else
    match authenticate_user digest lookup password with
    | (none, n) => (.invalidCredentials, n)
    | (some user, n) =>
      if !user.is_admin then (.wrongRole, n)
      else if !user.is_active then (.deactivated, n)
      else
        (.success (create_access_token ⟨some user.email, none⟩ now
          (some (ACCESS_TOKEN_EXPIRE_MINUTES * 60))), n)

def affiliate_login (digest : List Char → List Char) (attempts : List Int)
    (now : Int) (lookup : Lookup User) (password : List Char) :
    LoginOutcome × Nat :=
  if !(is_login_allowed now attempts).1 then (.throttled, 0)
  else
    match authenticate_user digest lookup password with
    | (none, n) => (.invalidCredentials, n)
    | (some user, n) =>
      if user.is_admin then (.wrongRole, n)
      else if !user.is_active then (.deactivated, n)
      else
        (.success (create_access_token ⟨some user.email, none⟩ now
          (some (ACCESS_TOKEN_EXPIRE_MINUTES * 60))), n)

def referral_login (digest : List Char → List Char) (attempts : List Int)
    (now : Int) (lookup : Lookup User) (password : List Char) :
    LoginOutcome × Nat :=
  if !(is_login_allowed now attempts).1 then (.throttled, 0)
  else
    match authenticate_user digest lookup password with
    | (none, n) => (.invalidCredentials, n)
    | (some user, n) =>
      if user.is_admin then (.wrongRole, n)
      else if !user.is_active then (.deactivated, n)
      else
        (.success (create_access_token ⟨some user.email, none⟩ now
          (some (ACCESS_TOKEN_EXPIRE_MINUTES * 60))), n)

/-! ## Single-use password-reset tokens (src/models.py 92-102,
src/auth_utils.py 174-220, src/crud.py 703-781)

`EmailVerificationToken` documents live in one collection; `find_one`
returns the first match in natural (insertion) order, `insert` appends.
`verify_password_reset_token` looks the token string up scoped to
`token_type == "password_reset"`, then rejects used records, then
rejects records with `utcnow() > expires_at`; all three rejections
return `None`. -/

structure EmailVerificationToken where
  email : String
  token : String
  token_type : String
  expires_at : Int
  is_used : Bool
  used_at : Option Int
deriving Repr, DecidableEq

def isResetTokenFor (tok : String) (r : EmailVerificationToken) : Bool :=
  r.token == tok && r.token_type == "password_reset"

def verify_password_reset_token (tokens : List EmailVerificationToken)
    (tok : String) (now : Int) : Option EmailVerificationToken :=
  match tokens.find? (isResetTokenFor tok) with
  | none => none
  | some token_record =>
    if token_record.is_used then none
    else if now > token_record.expires_at then none
    else some token_record

/-- `mark_password_reset_token_as_used` saves `is_used = True` and
`used_at = utcnow()` on the document `verify_password_reset_token`
returned — the first record matching the token string and type. -/
def mark_password_reset_token_as_used (tokens : List EmailVerificationToken)
    (tok : String) (now : Int) : List EmailVerificationToken :=
  match tokens with
  | [] => []
  | r :: rs =>
    if isResetTokenFor tok r then
      { r with is_used := true, used_at := some now } :: rs
    else r :: mark_password_reset_token_as_used rs tok now

def create_password_reset_token (tokens : List EmailVerificationToken)
    (email tok : String) (now : Int) : List EmailVerificationToken :=
  tokens ++ [{ email := email, token := tok,
               token_type := "password_reset",
               expires_at := now + 24 * 3600,
               is_used := false, used_at := none }]

/-- Combined persistent state: the users collection and the
verification-token collection. -/
structure Store where
  users : List User
  tokens : List EmailVerificationToken
deriving Repr, DecidableEq

/-- `user.save()` after `find_one` by email: replace the first user
record holding that email. -/
def saveUserPassword (users : List User) (email : String)
    (newHash : List Char) : List User :=
  match users with
  | [] => []
  | u :: us =>
    if u.email == email then { u with hashed_password := newHash } :: us
    else u :: saveUserPassword us email newHash

/-- src/crud.py 726-751.  Verify the token, find the user by the
record's email, store the new password hash, mark the token used;
`None` (here `none`) when the token is invalid or the user is gone.
`digest`/`salt` feed `get_password_hash`, `now` is `utcnow()`. -/
def reset_password_with_token (st : Store) (tok : String)
    (new_password : List Char) (digest : List Char → List Char)
    (salt : List Char) (now : Int) : Option (String × Store) :=
  match verify_password_reset_token st.tokens tok now with
  | none => none
  | some token_record =>
    match st.users.find? (fun u => u.email == token_record.email) with
    | none => none
    | some user =>
      let users := saveUserPassword st.users user.email
        (simple_hash_password digest salt new_password)
      let tokens := mark_password_reset_token_as_used st.tokens tok now
      some (user.email, { users := users, tokens := tokens })

/-- src/crud.py 703-724.  `request_password_reset` checks the user
exists and then only creates (inserts) a fresh token — it does not
touch previously issued tokens for the email. -/
def request_password_reset (st : Store) (email newTok : String)
    (now : Int) : Option Store :=
  match st.users.find? (fun u => u.email == email) with
  | none => none
  | some _ =>
    some { st with
      tokens := create_password_reset_token st.tokens email newTok now }

/-- src/crud.py 753-781.  `resend_password_reset_email` deletes every
existing password-reset token for the email before inserting the
fresh one. -/
def resend_password_reset_email (st : Store) (email newTok : String)
    (now : Int) : Option Store :=
  match st.users.find? (fun u => u.email == email) with
  | none => none
  | some _ =>
    let kept := st.tokens.filter (fun r =>
      !(r.email == email && r.token_type == "password_reset"))
    some { st with
      tokens := create_password_reset_token kept email newTok now }

/-! ## Helper lemmas -/

theorem splitFirst_salt_append (salt h : List Char) (hs : ':' ∉ salt) :
    splitFirst (salt ++ ':' :: h) = some (salt, h) := by
  induction salt with
  | nil => simp [splitFirst]
  | cons c cs ih =>
    have hc : c ≠ ':' := fun hcc => hs (hcc ▸ List.mem_cons_self c cs)
    have hcs : ':' ∉ cs := fun hmem => hs (List.mem_cons_of_mem c hmem)
    simp [splitFirst, hc, ih hcs]

theorem splitFirst_eq_none (s : List Char) (hs : ':' ∉ s) :
    splitFirst s = none := by
  induction s with
  | nil => rfl
  | cons c cs ih =>
    have hc : c ≠ ':' := fun hcc => hs (hcc ▸ List.mem_cons_self c cs)
    have hcs : ':' ∉ cs := fun hmem => hs (List.mem_cons_of_mem c hmem)
    simp [splitFirst, hc, ih hcs]

theorem dropWhile_lt_eq_filter_ge (c : Int) (l : List Int)
    (hs : l.Sorted (· ≤ ·)) :
    l.dropWhile (fun t => decide (t < c)) =
      l.filter (fun t => decide (c ≤ t)) := by
  induction l with
  | nil => rfl
  | cons a l ih =>
    rw [List.sorted_cons] at hs
    obtain ⟨ha, hl⟩ := hs
    by_cases hac : a < c
    · have h1 : decide (a < c) = true := by simpa using hac
      have h2 : decide (c ≤ a) = false := by simpa using hac
      simp [List.dropWhile_cons, List.filter_cons, h1, h2, ih hl]
    · have h1 : decide (a < c) = false := by simpa using hac
      have h2 : decide (c ≤ a) = true := by simpa using not_lt.mp hac
      have hfl : l.filter (fun t => decide (c ≤ t)) = l := by
        apply List.filter_eq_self.mpr
        intro b hb
        exact decide_eq_true (le_trans (not_lt.mp hac) (ha b hb))
      simp [List.dropWhile_cons, List.filter_cons, h1, h2, hfl]

/-! ## C8 / C9: password hasher -/

/-- C8: hash round-trip.  For every password `p` and every salt the
hash operation draws (a salt never containing the `':'` delimiter, as
`token_hex` output never does), `simple_verify_password p
(simple_hash_password p)` is true; and for passwords `p1`, `p2` whose
digests under the stored salt differ,
`simple_verify_password p1 (simple_hash_password p2)` is false. -/
theorem hash_round_trip (digest : List Char → List Char)
    (salt p1 p2 : List Char) (hsalt : ':' ∉ salt) :
    simple_verify_password digest p1 (simple_hash_password digest salt p1)
      = true
    ∧ (digest (p1 ++ salt) ≠ digest (p2 ++ salt) →
       simple_verify_password digest p1 (simple_hash_password digest salt p2)
         = false) := by
  have hsplit : ∀ d : List Char,
      splitFirst (salt ++ ':' :: d) = some (salt, d) :=
    fun d => splitFirst_salt_append salt d hsalt
  constructor
  · simp [simple_verify_password, simple_hash_password, hsplit]
  · intro hne
    simp [simple_verify_password, simple_hash_password, hsplit]
    exact hne

/-- C8 witness at a concrete digest, salt and password pair. -/
theorem hash_round_trip_witness :
    simple_verify_password (fun s => s) ['a']
        (simple_hash_password (fun s => s) ['s'] ['a']) = true
    ∧ ((fun (s : List Char) => s) (['a'] ++ ['s']) ≠
        (fun (s : List Char) => s) (['b'] ++ ['s']) →
       simple_verify_password (fun s => s) ['a']
        (simple_hash_password (fun s => s) ['s'] ['b']) = false) :=
  hash_round_trip (fun s => s) ['s'] ['a'] ['b'] (by decide)

/-- C9: verification is total and silently rejecting.  The embedded
function returns a boolean on every input (totality is by
construction; the disjunction states it); a stored form on which
decoding fails (`splitFirst` is `none`, the raising tuple-unpack in
Python) yields `false`, and in particular every colon-free stored form
yields `false`. -/
theorem verify_total_silent (digest : List Char → List Char)
    (password stored : List Char) :
    (simple_verify_password digest password stored = true
      ∨ simple_verify_password digest password stored = false)
    ∧ (splitFirst stored = none →
        simple_verify_password digest password stored = false)
    ∧ (':' ∉ stored →
        simple_verify_password digest password stored = false) := by
  refine ⟨?_, ?_, ?_⟩
  · cases h : simple_verify_password digest password stored
    · exact Or.inr rfl
    · exact Or.inl rfl
  · intro h
    simp [simple_verify_password, h]
  · intro h
    simp [simple_verify_password, splitFirst_eq_none stored h]

/-- C9 witness: a malformed (colon-free) stored form is rejected. -/
theorem verify_total_silent_witness :
    simple_verify_password (fun s => s) ['a'] ['b', 'c'] = false :=
  (verify_total_silent (fun s => s) ['a'] ['b', 'c']).2.2 (by decide)

/-! ## C6: throttle threshold semantics -/

/-- C6: `is_login_allowed` is true iff, after pruning entries older
than the 300-second window, the number of failure timestamps within
the trailing window (`now - 300 ≤ t`) is strictly below 10; once every
recorded failure is older than the window it is true again; and a
recorded success clears the failures so it is true immediately.
The deque is in append (chronological) order, hence sorted. -/
theorem throttle_threshold (now : Int) (attempts : List Int)
    (hs : attempts.Sorted (· ≤ ·)) :
    ((is_login_allowed now attempts).1 = true ↔
      (attempts.filter
        (fun t => decide (now - LOCKOUT_WINDOW_SECONDS ≤ t))).length
        < MAX_ATTEMPTS)
    ∧ ((∀ t ∈ attempts, t < now - LOCKOUT_WINDOW_SECONDS) →
        (is_login_allowed now attempts).1 = true)
    ∧ (is_login_allowed now (register_login_success attempts)).1 = true := by
  have hprune : prune_attempts now attempts =
      attempts.filter (fun t => decide (now - LOCKOUT_WINDOW_SECONDS ≤ t)) :=
    dropWhile_lt_eq_filter_ge (now - LOCKOUT_WINDOW_SECONDS) attempts hs
  refine ⟨?_, ?_, ?_⟩
  · simp [is_login_allowed, hprune]
  · intro hall
    have hnil : attempts.filter
        (fun t => decide (now - LOCKOUT_WINDOW_SECONDS ≤ t)) = [] := by
      apply List.filter_eq_nil_iff.mpr
      intro t ht
      simpa using not_le.mpr (hall t ht)
    simp only [is_login_allowed, hprune, hnil, List.length_nil]
    decide
  · simp [is_login_allowed, register_login_success, prune_attempts,
      MAX_ATTEMPTS]

/-- C6 witness: a concrete sorted deque of 10 in-window failures is
throttled, and the other two conjuncts evaluate at the same input. -/
theorem throttle_threshold_witness :
    ((is_login_allowed 300 [0, 1, 2, 3, 4, 5, 6, 7, 8, 9]).1 = true ↔
      ([0, 1, 2, 3, 4, 5, 6, 7, 8, 9].filter
        (fun t : Int => decide (300 - LOCKOUT_WINDOW_SECONDS ≤ t))).length
        < MAX_ATTEMPTS)
    ∧ ((∀ t ∈ [0, 1, 2, 3, 4, 5, 6, 7, 8, 9],
          t < 300 - LOCKOUT_WINDOW_SECONDS) →
        (is_login_allowed 300 [0, 1, 2, 3, 4, 5, 6, 7, 8, 9]).1 = true)
    ∧ (is_login_allowed 300
        (register_login_success [0, 1, 2, 3, 4, 5, 6, 7, 8, 9])).1 = true :=
  throttle_threshold 300 [0, 1, 2, 3, 4, 5, 6, 7, 8, 9] (by decide)

/-! ## C5: throttle consulted before any password verification -/

/-- C5: when the identifier's in-window failure count has reached the
maximum, every login endpoint answers `throttled` with zero password
verifications performed — for every store answer and every supplied
password, correct or not — and that outcome is distinct from
`invalidCredentials`. -/
theorem throttle_before_verify (digest : List Char → List Char)
    (attempts : List Int) (now : Int) (lookup : Lookup User)
    (password : List Char) (hs : attempts.Sorted (· ≤ ·))
    (hmax : MAX_ATTEMPTS ≤
      (attempts.filter
        (fun t => decide (now - LOCKOUT_WINDOW_SECONDS ≤ t))).length) :
    login digest attempts now lookup password = (.throttled, 0)
    ∧ admin_login digest attempts now lookup password = (.throttled, 0)
    ∧ affiliate_login digest attempts now lookup password = (.throttled, 0)
    ∧ referral_login digest attempts now lookup password = (.throttled, 0)
    ∧ LoginOutcome.throttled ≠ LoginOutcome.invalidCredentials := by
  have hprune : prune_attempts now attempts =
      attempts.filter (fun t => decide (now - LOCKOUT_WINDOW_SECONDS ≤ t)) :=
    dropWhile_lt_eq_filter_ge (now - LOCKOUT_WINDOW_SECONDS) attempts hs
  have hnot : (is_login_allowed now attempts).1 = false := by
    simp only [is_login_allowed, hprune, decide_eq_false_iff_not, not_lt]
    exact hmax
  refine ⟨?_, ?_, ?_, ?_, by simp⟩ <;>
    simp [login, admin_login, affiliate_login, referral_login, hnot]

/-- C5 witness: ten in-window failures throttle a login against a
store that would authenticate the password. -/
theorem throttle_before_verify_witness :
    login (fun s => s) [0, 0, 0, 0, 0, 0, 0, 0, 0, 0] 0
        (.ok (some ⟨"a@x.com", [':', 'p'], false, true⟩)) ['p']
      = (.throttled, 0)
    ∧ admin_login (fun s => s) [0, 0, 0, 0, 0, 0, 0, 0, 0, 0] 0
        (.ok (some ⟨"a@x.com", [':', 'p'], false, true⟩)) ['p']
      = (.throttled, 0)
    ∧ affiliate_login (fun s => s) [0, 0, 0, 0, 0, 0, 0, 0, 0, 0] 0
        (.ok (some ⟨"a@x.com", [':', 'p'], false, true⟩)) ['p']
      = (.throttled, 0)
    ∧ referral_login (fun s => s) [0, 0, 0, 0, 0, 0, 0, 0, 0, 0] 0
        (.ok (some ⟨"a@x.com", [':', 'p'], false, true⟩)) ['p']
      = (.throttled, 0)
    ∧ LoginOutcome.throttled ≠ LoginOutcome.invalidCredentials :=
  throttle_before_verify (fun s => s) [0, 0, 0, 0, 0, 0, 0, 0, 0, 0] 0
    (.ok (some ⟨"a@x.com", [':', 'p'], false, true⟩)) ['p']
    (by decide) (by decide)

/-! ## C3: no endpoint issues a token that authenticates as referral -/

theorem login_success_user_type (digest : List Char → List Char)
    (attempts : List Int) (now : Int) (lookup : Lookup User)
    (password : List Char) (p : Payload) (n : Nat)
    (h : login digest attempts now lookup password = (.success p, n)) :
    p.user_type = none := by
  unfold login at h
  split at h
  · simp at h
  · split at h
    · simp at h
    · split at h
      · simp at h
      · rw [Prod.mk.injEq, LoginOutcome.success.injEq] at h
        obtain ⟨h1, -⟩ := h
        rw [← h1]
        rfl

theorem admin_login_success_user_type (digest : List Char → List Char)
    (attempts : List Int) (now : Int) (lookup : Lookup User)
    (password : List Char) (p : Payload) (n : Nat)
    (h : admin_login digest attempts now lookup password = (.success p, n)) :
    p.user_type = none := by
  unfold admin_login at h
  split at h
  · simp at h
  · split at h
    · simp at h
    · split at h
      · simp at h
      · split at h
        · simp at h
        · rw [Prod.mk.injEq, LoginOutcome.success.injEq] at h
          obtain ⟨h1, -⟩ := h
          rw [← h1]
          rfl

theorem affiliate_login_success_user_type (digest : List Char → List Char)
    (attempts : List Int) (now : Int) (lookup : Lookup User)
    (password : List Char) (p : Payload) (n : Nat)
    (h : affiliate_login digest attempts now lookup password
      = (.success p, n)) :
    p.user_type = none := by
  unfold affiliate_login at h
  split at h
  · simp at h
  · split at h
    · simp at h
    · split at h
      · simp at h
      · split at h
        · simp at h
        · rw [Prod.mk.injEq, LoginOutcome.success.injEq] at h
          obtain ⟨h1, -⟩ := h
          rw [← h1]
          rfl

theorem referral_login_success_user_type (digest : List Char → List Char)
    (attempts : List Int) (now : Int) (lookup : Lookup User)
    (password : List Char) (p : Payload) (n : Nat)
    (h : referral_login digest attempts now lookup password
      = (.success p, n)) :
    p.user_type = none := by
  unfold referral_login at h
  split at h
  · simp at h
  · split at h
    · simp at h
    · split at h
      · simp at h
      · split at h
        · simp at h
        · rw [Prod.mk.injEq, LoginOutcome.success.injEq] at h
          obtain ⟨h1, -⟩ := h
          rw [← h1]
          rfl

theorem get_current_referral_rejects_no_user_type (p : Payload)
    (hty : p.user_type = none) (db : String → Lookup Referral) :
    get_current_referral (some (.ok p)) db = .unauthorized := by
  obtain ⟨sub, uty, e⟩ := p
  simp only [Payload.user_type] at hty
  subst hty
  cases sub <;> simp [get_current_referral]

/-- C3: every token issued by the admin, affiliate, referral or legacy
login endpoint carries no `user_type` claim in its signed payload, so
`get_current_referral` — which requires `user_type == "referral"` —
rejects it as unauthenticated against every referral store. -/
theorem issued_tokens_never_authenticate_as_referral
    (digest : List Char → List Char) (attempts : List Int) (now : Int)
    (lookup : Lookup User) (password : List Char) (p : Payload) (n : Nat)
    (h : login digest attempts now lookup password = (.success p, n)
       ∨ admin_login digest attempts now lookup password = (.success p, n)
       ∨ affiliate_login digest attempts now lookup password
           = (.success p, n)
       ∨ referral_login digest attempts now lookup password
           = (.success p, n)) :
    p.user_type = none
    ∧ ∀ db : String → Lookup Referral,
        get_current_referral (some (.ok p)) db = .unauthorized := by
  have hty : p.user_type = none := by
    rcases h with h | h | h | h
    · exact login_success_user_type digest attempts now lookup password p n h
    · exact admin_login_success_user_type digest attempts now lookup
        password p n h
    · exact affiliate_login_success_user_type digest attempts now lookup
        password p n h
    · exact referral_login_success_user_type digest attempts now lookup
        password p n h
  exact ⟨hty, fun db => get_current_referral_rejects_no_user_type p hty db⟩

/-- C3 witness: a concrete successful referral login issues a payload
that `get_current_referral` rejects even against a store holding a
referral record for that email. -/
theorem issued_tokens_never_authenticate_as_referral_witness :
    (Payload.mk (some "a@x.com") none 1800).user_type = none
    ∧ ∀ db : String → Lookup Referral,
        get_current_referral
          (some (.ok (Payload.mk (some "a@x.com") none 1800))) db
          = .unauthorized :=
  issued_tokens_never_authenticate_as_referral (fun s => s) [] 0
    (.ok (some ⟨"a@x.com", [':', 'p'], false, true⟩)) ['p']
    (Payload.mk (some "a@x.com") none 1800) 1
    (Or.inr (Or.inr (Or.inr (by decide))))

/-! ## Token-store helper lemmas -/

theorem verify_eq_some_elim (tokens : List EmailVerificationToken)
    (tok : String) (now : Int) (r : EmailVerificationToken)
    (h : verify_password_reset_token tokens tok now = some r) :
    tokens.find? (isResetTokenFor tok) = some r
    ∧ r.is_used = false ∧ ¬ now > r.expires_at := by
  unfold verify_password_reset_token at h
  cases hf : tokens.find? (isResetTokenFor tok) with
  | none => rw [hf] at h; simp at h
  | some r0 =>
    rw [hf] at h
    dsimp only at h
    by_cases hu : r0.is_used = true
    · simp [hu] at h
    · rw [if_neg hu] at h
      by_cases he : now > r0.expires_at
      · simp [he] at h
      · rw [if_neg he] at h
        injection h with h
        subst h
        exact ⟨rfl, by simpa using hu, he⟩

theorem verify_of_find_none (tokens : List EmailVerificationToken)
    (tok : String) (now : Int)
    (hf : tokens.find? (isResetTokenFor tok) = none) :
    verify_password_reset_token tokens tok now = none := by
  unfold verify_password_reset_token
  rw [hf]

theorem verify_of_used (tokens : List EmailVerificationToken)
    (tok : String) (now : Int) (r : EmailVerificationToken)
    (hf : tokens.find? (isResetTokenFor tok) = some r)
    (hu : r.is_used = true) :
    verify_password_reset_token tokens tok now = none := by
  unfold verify_password_reset_token
  rw [hf]
  dsimp only
  rw [if_pos hu]

theorem verify_of_expired (tokens : List EmailVerificationToken)
    (tok : String) (now : Int) (r : EmailVerificationToken)
    (hf : tokens.find? (isResetTokenFor tok) = some r)
    (hu : r.is_used = false) (he : r.expires_at < now) :
    verify_password_reset_token tokens tok now = none := by
  unfold verify_password_reset_token
  rw [hf]
  dsimp only
  rw [if_neg (by simp [hu]), if_pos he]

theorem find?_mark_used (tokens : List EmailVerificationToken)
    (tok : String) (now : Int) (r : EmailVerificationToken)
    (h : tokens.find? (isResetTokenFor tok) = some r) :
    (mark_password_reset_token_as_used tokens tok now).find?
      (isResetTokenFor tok)
      = some { r with is_used := true, used_at := some now } := by
  induction tokens with
  | nil => simp [List.find?] at h
  | cons r0 rs ih =>
    by_cases h0 : isResetTokenFor tok r0 = true
    · rw [List.find?_cons_of_pos _ h0] at h
      injection h with h
      subst h
      show (mark_password_reset_token_as_used (r0 :: rs) tok now).find?
        (isResetTokenFor tok) = _
      unfold mark_password_reset_token_as_used
      rw [if_pos h0]
      exact List.find?_cons_of_pos _ (by simpa [isResetTokenFor] using h0)
    · rw [List.find?_cons_of_neg _ h0] at h
      show (mark_password_reset_token_as_used (r0 :: rs) tok now).find?
        (isResetTokenFor tok) = _
      unfold mark_password_reset_token_as_used
      rw [if_neg h0, List.find?_cons_of_neg _ h0]
      exact ih h

/-! ## C2: single-use enforcement -/

/-- C2: when `reset_password_with_token` succeeds, the stored record
for that token string carries `is_used = true` afterwards, and every
later consumption attempt with the same token string — for any
password, digest, salt and any time, in particular before the expiry
has elapsed — returns `none` (rejected as invalid). -/
theorem single_use_enforcement (st : Store) (tok : String)
    (new_password : List Char) (digest : List Char → List Char)
    (salt : List Char) (now : Int) (email : String) (st' : Store)
    (h : reset_password_with_token st tok new_password digest salt now
      = some (email, st')) :
    (∃ r, st'.tokens.find? (isResetTokenFor tok) = some r
      ∧ r.is_used = true)
    ∧ ∀ (p2 : List Char) (digest2 : List Char → List Char)
        (salt2 : List Char) (now2 : Int),
        reset_password_with_token st' tok p2 digest2 salt2 now2
          = none := by
  unfold reset_password_with_token at h
  cases hv : verify_password_reset_token st.tokens tok now with
  | none => rw [hv] at h; simp at h
  | some r =>
    rw [hv] at h
    dsimp only at h
    cases hu : st.users.find? (fun u => u.email == r.email) with
    | none => rw [hu] at h; simp at h
    | some user =>
      rw [hu] at h
      simp only [Option.some.injEq, Prod.mk.injEq] at h
      obtain ⟨-, hst⟩ := h
      obtain ⟨hfind, -, -⟩ := verify_eq_some_elim st.tokens tok now r hv
      have hmark := find?_mark_used st.tokens tok now r hfind
      have htokens : st'.tokens =
          mark_password_reset_token_as_used st.tokens tok now := by
        rw [← hst]
      constructor
      · exact ⟨{ r with is_used := true, used_at := some now },
          by rw [htokens]; exact hmark, rfl⟩
      · intro p2 digest2 salt2 now2
        unfold reset_password_with_token
        rw [verify_of_used st'.tokens tok now2
          { r with is_used := true, used_at := some now }
          (by rw [htokens]; exact hmark) rfl]

/-- C2 witness: one concrete reset succeeds, flips the record to used,
and blocks every later attempt. -/
theorem single_use_enforcement_witness :
    (∃ r, (Store.mk
        [⟨"e@x.com", ['s', ':', 'n', 's'], false, true⟩]
        [⟨"e@x.com", "t", "password_reset", 86400, true, some 0⟩]).tokens.find?
        (isResetTokenFor "t") = some r ∧ r.is_used = true)
    ∧ ∀ (p2 : List Char) (digest2 : List Char → List Char)
        (salt2 : List Char) (now2 : Int),
        reset_password_with_token
          (Store.mk
            [⟨"e@x.com", ['s', ':', 'n', 's'], false, true⟩]
            [⟨"e@x.com", "t", "password_reset", 86400, true, some 0⟩])
          "t" p2 digest2 salt2 now2 = none :=
  single_use_enforcement
    (Store.mk [⟨"e@x.com", ['p', ':', 'q'], false, true⟩]
      [⟨"e@x.com", "t", "password_reset", 86400, false, none⟩])
    "t" ['n'] (fun s => s) ['s'] 0 "e@x.com"
    (Store.mk [⟨"e@x.com", ['s', ':', 'n', 's'], false, true⟩]
      [⟨"e@x.com", "t", "password_reset", 86400, true, some 0⟩])
    (by decide)

/-! ## C7: expiry rejection is independent of the used flag -/

/-- C7: a stored reset token whose expiry instant has elapsed is
rejected (`none`) even though it was never consumed (`is_used =
false`); and that rejection is the very same observable `none` the
caller gets for a token string with no record and for an
already-consumed record. -/
theorem expiry_overrides_used (tokens : List EmailVerificationToken)
    (tok : String) (now : Int) (r : EmailVerificationToken)
    (hfind : tokens.find? (isResetTokenFor tok) = some r)
    (hunused : r.is_used = false) (hexp : r.expires_at < now) :
    verify_password_reset_token tokens tok now = none
    ∧ (∀ tokens2 : List EmailVerificationToken,
        tokens2.find? (isResetTokenFor tok) = none →
        verify_password_reset_token tokens2 tok now = none)
    ∧ (∀ (tokens3 : List EmailVerificationToken)
        (r3 : EmailVerificationToken),
        tokens3.find? (isResetTokenFor tok) = some r3 →
        r3.is_used = true →
        verify_password_reset_token tokens3 tok now = none) :=
  ⟨verify_of_expired tokens tok now r hfind hunused hexp,
   fun tokens2 hf => verify_of_find_none tokens2 tok now hf,
   fun tokens3 r3 hf hu => verify_of_used tokens3 tok now r3 hf hu⟩

/-- C7 witness: a concrete unexpired-flag, elapsed-expiry record. -/
theorem expiry_overrides_used_witness :
    verify_password_reset_token
      [⟨"e@x.com", "t", "password_reset", 100, false, none⟩] "t" 101
      = none
    ∧ (∀ tokens2 : List EmailVerificationToken,
        tokens2.find? (isResetTokenFor "t") = none →
        verify_password_reset_token tokens2 "t" 101 = none)
    ∧ (∀ (tokens3 : List EmailVerificationToken)
        (r3 : EmailVerificationToken),
        tokens3.find? (isResetTokenFor "t") = some r3 →
        r3.is_used = true →
        verify_password_reset_token tokens3 "t" 101 = none) :=
  expiry_overrides_used
    [⟨"e@x.com", "t", "password_reset", 100, false, none⟩] "t" 101
    ⟨"e@x.com", "t", "password_reset", 100, false, none⟩
    (by decide) rfl (by decide)

/-! ## C4: only the newest reset token is live -/

/-- C4 counterexample: the initial request path issues a replacement
token without invalidating the previous one.  Two consecutive
`request_password_reset` calls for `e@x.com` leave the first token
`t1` still consumable — `reset_password_with_token` succeeds on it —
so it is not the case that issuing a replacement invalidates every
previously issued token on the request path. -/
theorem request_path_leaves_old_token_live :
    (request_password_reset
        (Store.mk [⟨"e@x.com", ['p', ':', 'q'], false, true⟩] [])
        "e@x.com" "t1" 0).bind
      (fun st1 => request_password_reset st1 "e@x.com" "t2" 0)
      = some (Store.mk [⟨"e@x.com", ['p', ':', 'q'], false, true⟩]
          [⟨"e@x.com", "t1", "password_reset", 86400, false, none⟩,
           ⟨"e@x.com", "t2", "password_reset", 86400, false, none⟩])
    ∧ (reset_password_with_token
        (Store.mk [⟨"e@x.com", ['p', ':', 'q'], false, true⟩]
          [⟨"e@x.com", "t1", "password_reset", 86400, false, none⟩,
           ⟨"e@x.com", "t2", "password_reset", 86400, false, none⟩])
        "t1" ['n'] (fun s => s) ['s'] 1).isSome = true := by
  decide

/-- C4 amended: only the resend path invalidates.  Whenever
`resend_password_reset_email` issues a replacement token, every
previously stored reset token for that email (any record carrying a
different token string) is deleted, so consuming it is rejected at
every later time; the initial request path gives no such guarantee. -/
theorem resend_invalidates_previous (st : Store) (email newTok : String)
    (now : Int) (st' : Store)
    (h : resend_password_reset_email st email newTok now = some st')
    (oldTok : String) (hne : oldTok ≠ newTok)
    (hscope : ∀ r ∈ st.tokens, r.token = oldTok →
      r.email = email ∧ r.token_type = "password_reset") :
    ∀ now2 : Int,
      verify_password_reset_token st'.tokens oldTok now2 = none := by
  intro now2
  unfold resend_password_reset_email at h
  cases hu : st.users.find? (fun u => u.email == email) with
  | none => rw [hu] at h; simp at h
  | some user =>
    rw [hu] at h
    dsimp only at h
    simp only [Option.some.injEq] at h
    subst h
    apply verify_of_find_none
    apply List.find?_eq_none.mpr
    intro x hx
    simp only [create_password_reset_token, List.mem_append,
      List.mem_singleton] at hx
    rcases hx with hx | hx
    · obtain ⟨hmem, hpred⟩ := List.mem_filter.mp hx
      intro hmatch
      simp only [isResetTokenFor, Bool.and_eq_true, beq_iff_eq] at hmatch
      obtain ⟨hemail, htype⟩ := hscope x hmem hmatch.1
      simp [hemail, htype] at hpred
    · intro hmatch
      simp only [hx, isResetTokenFor, Bool.and_eq_true, beq_iff_eq]
        at hmatch
      exact hne hmatch.1.symm

/-- C4 amended-claim witness: a concrete resend deletes the earlier
token `t1`, which is then rejected. -/
theorem resend_invalidates_previous_witness :
    verify_password_reset_token
      (Store.mk [⟨"e@x.com", ['p', ':', 'q'], false, true⟩]
        [⟨"e@x.com", "t2", "password_reset", 86400, false, none⟩]).tokens
      "t1" 1 = none :=
  resend_invalidates_previous
    (Store.mk [⟨"e@x.com", ['p', ':', 'q'], false, true⟩]
      [⟨"e@x.com", "t1", "password_reset", 86400, false, none⟩])
    "e@x.com" "t2" 0
    (Store.mk [⟨"e@x.com", ['p', ':', 'q'], false, true⟩]
      [⟨"e@x.com", "t2", "password_reset", 86400, false, none⟩])
    (by decide) "t1" (by decide) (by decide) 1

/-! ## C1: store-unavailable surfacing -/

/-- C1 counterexample: a login call whose account-store lookup raises
is rejected with the generic invalid-credentials outcome (the
`except Exception: return None` in `authenticate_user` swallows the
store failure), contradicting the claim that every login or
authenticate call surfaces a raising store as service-unavailable and
never as invalid credentials. -/
theorem login_store_error_is_invalid_credentials :
    login (fun s => s) [] 0 (.error ()) ['p']
      = (.invalidCredentials, 0) := by
  decide

/-- C1 amended: the service-unavailable distinction holds for the
token-based authenticate calls — for every decodable payload with a
subject, `get_current_user` answers `serviceUnavailable`, never the
generic unauthenticated rejection, when the store lookup raises
(whatever the payload's `user_type`, including the user_type-absent
payloads the system issues), and `get_current_referral` does the same
for every payload that reaches its lookup (`user_type = "referral"`) —
while all four login endpoints report a raising store as the generic
invalid-credentials rejection. -/
theorem store_unavailable_surfacing (payload : Payload) (email : String)
    (dbU : String → Lookup User) (dbR : String → Lookup Referral)
    (digest : List Char → List Char) (attempts : List Int) (now : Int)
    (password : List Char)
    (hsub : payload.sub = some email)
    (hU : dbU email = .error ()) (hR : dbR email = .error ())
    (hallow : (is_login_allowed now attempts).1 = true) :
    get_current_user (some (.ok payload)) dbU = .serviceUnavailable
    ∧ get_current_user (some (.ok payload)) dbU ≠ .unauthorized
    ∧ (payload.user_type = some "referral" →
        get_current_referral (some (.ok payload)) dbR
          = .serviceUnavailable)
    ∧ login digest attempts now (.error ()) password
        = (.invalidCredentials, 0)
    ∧ admin_login digest attempts now (.error ()) password
        = (.invalidCredentials, 0)
    ∧ affiliate_login digest attempts now (.error ()) password
        = (.invalidCredentials, 0)
    ∧ referral_login digest attempts now (.error ()) password
        = (.invalidCredentials, 0) := by
  obtain ⟨sub, uty, e⟩ := payload
  simp only [Payload.sub] at hsub
  subst hsub
  refine ⟨?_, ?_, ?_, ?_, ?_, ?_, ?_⟩
  · simp [get_current_user, hU]
  · simp [get_current_user, hU]
  · intro hty
    simp only [Payload.user_type] at hty
    subst hty
    simp [get_current_referral, hR]
  · simp [login, authenticate_user, hallow]
  · simp [admin_login, authenticate_user, hallow]
  · simp [affiliate_login, authenticate_user, hallow]
  · simp [referral_login, authenticate_user, hallow]

/-- C1 amended-claim witness at a concrete payload (carrying the
`referral` marker so that every conjunct is exercised) and a failing
store. -/
theorem store_unavailable_surfacing_witness :
    get_current_user
      (some (.ok (Payload.mk (some "a@x.com") (some "referral") 60)))
      (fun _ => .error ()) = .serviceUnavailable
    ∧ get_current_user
      (some (.ok (Payload.mk (some "a@x.com") (some "referral") 60)))
      (fun _ => .error ()) ≠ .unauthorized
    ∧ ((Payload.mk (some "a@x.com") (some "referral") 60).user_type
          = some "referral" →
        get_current_referral
          (some (.ok (Payload.mk (some "a@x.com") (some "referral") 60)))
          (fun _ => .error ()) = .serviceUnavailable)
    ∧ login (fun s => s) [] 0 (.error ()) ['p']
        = (.invalidCredentials, 0)
    ∧ admin_login (fun s => s) [] 0 (.error ()) ['p']
        = (.invalidCredentials, 0)
    ∧ affiliate_login (fun s => s) [] 0 (.error ()) ['p']
        = (.invalidCredentials, 0)
    ∧ referral_login (fun s => s) [] 0 (.error ()) ['p']
        = (.invalidCredentials, 0) :=
  store_unavailable_surfacing
    (Payload.mk (some "a@x.com") (some "referral") 60) "a@x.com"
    (fun _ => .error ()) (fun _ => .error ()) (fun s => s) [] 0 ['p']
    rfl rfl rfl (by decide)

/-! ## C10: stale token after account deletion -/

/-- C10: a cryptographically valid, unexpired token whose subject
`d@x.com` no longer resolves to any account does NOT produce the
unauthenticated outcome: in `get_current_user` the 401 raised for a
missing user is itself caught by the enclosing `except Exception`
clause and re-surfaced as the 503 service-unavailable response, so the
code answers `serviceUnavailable` where the claim requires
`unauthorized`. -/
theorem stale_token_yields_service_unavailable :
    get_current_user
      (some (.ok (Payload.mk (some "d@x.com") none 1000)))
      (fun _ => .ok none)
      = .serviceUnavailable
    ∧ AuthResult.serviceUnavailable ≠ (AuthResult.unauthorized : AuthResult User) := by
  exact ⟨rfl, by simp⟩

end Tracking
